import Mathlib

/-!
Verification development for the sqlite3-editor backend server
(src/vscode/server.py).  The Python source is shallowly embedded:

* `find_widget_regexp` is translated line-for-line from the source,
  on top of a small model of Python's `re` module (a parser from
  pattern strings to a regex AST plus a matcher with word boundaries,
  covering the fragment of regex syntax exercised here; any construct
  outside the fragment is treated as a pattern-compilation error).
* The SQLite engine is an external collaborator of the program; it is
  modelled by a micro engine (`parseStmt` / `execStmt` / `connExec`)
  that captures the behaviours the server relies on: statements either
  read or have write effects, a connection opened with `mode=ro`
  rejects write-effecting statements with the engine's
  "attempt to write a readonly database" error before touching the
  database, and a failing statement inside `with connection:` is rolled
  back by the context manager.
* `Server.handle` is translated from the source's dispatch code;
  `handleGen` is the same code abstracted over the two connections'
  execute functions, mirroring that the two handles are fields of the
  `Server` object.
-/

namespace SqliteEditor

/-- SQLite values as they cross the msgpack boundary (floats are not
exercised by any property proved here and are omitted). -/
inductive Value where
  | null
  | int (i : Int)
  | text (s : String)
  | blob (bs : List Nat)
deriving DecidableEq

/-- The apostrophe character, used by Python's `repr` of strings. -/
def quoteCh : Char := '\x27'

/-- Model of Python's `repr` for the values that can appear in `params`
(used by the f-string `f"...Params: {request_body['params']}"` in the
source; the byte-blob rendering is abbreviated). -/
def pyRepr : Value → String
  | Value.null => "None"
  | Value.int i => toString i
  | Value.text s => String.singleton quoteCh ++ s ++ String.singleton quoteCh
  | Value.blob bs => "bytearray(" ++ String.intercalate ", " (bs.map toString) ++ ")"

/-- Model of Python's `repr` of the whole parameter list. -/
def pyReprList (params : List Value) : String :=
  "[" ++ String.intercalate ", " (params.map pyRepr) ++ "]"

/-! ## Model of Python's `re` module (the fragment used by the server) -/

/-- Regex abstract syntax: empty pattern, a literal character,
concatenation, and the word-boundary assertion. -/
inductive Regex where
  | emptyR
  | charR (c : Char)
  | seqR (a b : Regex)
  | wordB
deriving DecidableEq

/-- Meaning of an escape sequence: a backslash followed by `b` is the
word-boundary assertion, a backslash before a letter or digit is some
other character class (outside the modelled fragment), and a backslash
before anything else is that literal character. -/
def escRegex (c : Char) : Option Regex :=
  if c == 'b' then some Regex.wordB
  else if c.isAlpha || c.isDigit then none
  else some (Regex.charR c)

/-- Characters that begin regex constructs outside the modelled
fragment; a pattern containing one fails to compile in the model. -/
def unsupportedChar (c : Char) : Bool :=
  c == '*' || c == '+' || c == '?' || c == '[' || c == ']' ||
  c == '\x7b' || c == '\x7d' || c == '^' || c == '$' || c == '.' || c == '|'

/-- Fuel-bounded recursive-descent parse of a concatenation of atoms
(literals, escapes, and groups `(...)` / `(?:...)`); stops before an
unmatched `)` so that a group's caller can consume it. -/
def parseSeq : Nat → List Char → Option (Regex × List Char)
  | 0, _ => none
  | Nat.succ _, [] => some (Regex.emptyR, [])
  | Nat.succ _, ')' :: rest => some (Regex.emptyR, ')' :: rest)
  | Nat.succ _, ['\\'] => none
  | Nat.succ f, '\\' :: e :: rest =>
    match escRegex e with
    | none => none
    | some r =>
      match parseSeq f rest with
      | some (r2, rest2) => some (Regex.seqR r r2, rest2)
      | none => none
  | Nat.succ f, '(' :: rest =>
    let body? : Option (List Char) :=
      match rest with
      | '?' :: ':' :: t => some t
      | '?' :: _ => none
      | t => some t
    match body? with
    | none => none
    | some t =>
      match parseSeq f t with
      | some (r, ')' :: rest2) =>
        match parseSeq f rest2 with
        | some (r2, rest3) => some (Regex.seqR r r2, rest3)
        | none => none
      | _ => none
  | Nat.succ f, c :: rest =>
    if unsupportedChar c then none
    else
      match parseSeq f rest with
      | some (r2, rest2) => some (Regex.seqR (Regex.charR c) r2, rest2)
      | none => none

/-- Compile a pattern string, or `none` when compilation fails
(Python's `re.error`). -/
def parseRegex (p : String) : Option Regex :=
  match parseSeq (2 * p.length + 4) p.data with
  | some (r, []) => some r
  | _ => none

/-- Word characters in the sense of regex `\b` / `\w`. -/
def isWordChar (c : Char) : Bool := c.isAlphanum || c == '_'

/-- Whether position `i` of the text is a word boundary: exactly one of
the neighbouring positions holds a word character (positions outside
the text count as non-word). -/
def wordBoundaryAt (full : List Char) (i : Nat) : Bool :=
  let prevW : Bool := if i = 0 then false else isWordChar (full.getD (i - 1) ' ')
  let nextW : Bool := isWordChar (full.getD i ' ')
  prevW != nextW

/-- Character comparison under the optional ignore-case flag
(Python's `re.RegexFlag.I`). -/
def charMatch (ic : Bool) (a b : Char) : Bool :=
  if ic then a.toLower == b.toLower else a == b

/-- All positions at which a match of `r` starting at position `i` of
the text can end. -/
def mEnds (ic : Bool) (full : List Char) : Regex → Nat → List Nat
  | Regex.emptyR, i => [i]
  | Regex.charR c, i =>
    if i < full.length then
      if charMatch ic c (full.getD i ' ') then [i + 1] else []
    else []
  | Regex.seqR a b, i => (mEnds ic full a i).flatMap (fun j => mEnds ic full b j)
  | Regex.wordB, i => if wordBoundaryAt full i then [i] else []

/-- Whether `r` matches somewhere in the text (Python's `re.search`
succeeding). -/
def searchMatch (ic : Bool) (full : List Char) (r : Regex) : Bool :=
  (List.range (full.length + 1)).any (fun i => !(mEnds ic full r i).isEmpty)

/-- Model of `re.search(pat, text, flags)`: `none` models `re.error`
raised at pattern compilation; `some b` tells whether a match was
found. -/
def reSearch (pat text : String) (ignoreCase : Bool) : Option Bool :=
  match parseRegex pat with
  | none => none
  | some r => some (searchMatch ignoreCase text.data r)

/-- Translated from `find_widget_regexp` in src/vscode/server.py.  The
source passes `pattern` as the regex and, when `whole_word` is truthy,
searches it inside the literal string "\b(?:{pattern})\b" (the string
in the source has no `f` prefix); `case_sensitive` falsy selects the
ignore-case flag; a pattern-compilation error is caught and yields 0. -/
def find_widget_regexp (text pattern : String) (whole_word case_sensitive : Int) : Int :=
  match reSearch pattern
      (if whole_word ≠ 0 then "\\b(?:\x7bpattern\x7d)\\b" else text)
      (case_sensitive == 0) with
  | none => 0
  | some b => if b then 1 else 0

/-- Modelled from the spec: the intended custom matcher contract
"matches(text, pattern, wholeWord, caseSensitive)": compile `pattern`
(wrapped with word-boundary anchors when `wholeWord`) and match it
against `text`, ignoring case when not `caseSensitive`. -/
def matches_spec (text pattern : String) (wholeWord caseSensitive : Bool) : Bool :=
  match reSearch (if wholeWord then "\\b(?:" ++ pattern ++ ")\\b" else pattern)
      text (!caseSensitive) with
  | none => false
  | some b => b

/-! ## Micro model of the SQLite engine (an external collaborator)

The database is a map from table names to single-column ("x") tables.
The statement grammar covers one read form, one no-result read form and
three write forms, enough to exercise every behaviour of the server
that the engine can trigger. -/

/-- A database: table name to its list of single-column row values. -/
abbrev DB := List (String × List Value)

/-- Micro SQL statements. -/
inductive SQLStmt where
  | selectAll (table : String)
  | beginTxn
  | createTable (table : String)
  | insertInto (table : String)
  | dropTable (table : String)
deriving DecidableEq

/-- Split a character list into space-separated words. -/
def wordsAux : List Char → List Char → List String
  | [], acc => [String.mk acc]
  | ' ' :: rest, acc => String.mk acc :: wordsAux rest []
  | c :: rest, acc => wordsAux rest (acc ++ [c])

/-- The words of a query string. -/
def qWords (q : String) : List String := wordsAux q.data []

/-- The engine's statement compiler: unparseable text is a syntax
error (modelled as `none`). -/
def parseStmt (q : String) : Option SQLStmt :=
  match qWords q with
  | ["BEGIN"] => some SQLStmt.beginTxn
  | ["SELECT", "*", "FROM", t] => some (SQLStmt.selectAll t)
  | ["CREATE", "TABLE", t] => some (SQLStmt.createTable t)
  | ["INSERT", "INTO", t] => some (SQLStmt.insertInto t)
  | ["DROP", "TABLE", t] => some (SQLStmt.dropTable t)
  | _ => none

/-- Whether a statement has write effects on the database. -/
def writeEffect : SQLStmt → Bool
  | SQLStmt.selectAll _ => false
  | SQLStmt.beginTxn => false
  | SQLStmt.createTable _ => true
  | SQLStmt.insertInto _ => true
  | SQLStmt.dropTable _ => true

/-- Look a table up in the database. -/
def dbLookup : DB → String → Option (List Value)
  | [], _ => none
  | (t, rows) :: rest, t' => if t = t' then some rows else dbLookup rest t'

/-- Replace the rows of an existing table. -/
def dbReplace (db : DB) (t : String) (rows : List Value) : DB :=
  db.map (fun p => if p.1 = t then (t, rows) else p)

/-- Insert the parameter values one at a time (each parameter is one
row), stopping at the first constraint violation; the database returned
alongside an error retains the rows inserted before the failure — these
are the uncommitted partial effects of a failed multi-row insert, which
only a transaction rollback can undo. -/
def insertRows (t : String) : List Value → DB → Option String × DB
  | [], db => (none, db)
  | v :: rest, db =>
    match dbLookup db t with
    | none => (some ("no such table: " ++ t), db)
    | some rows =>
      match v with
      | Value.null => (some ("NOT NULL constraint failed: " ++ t ++ ".x"), db)
      | _ => insertRows t rest (dbReplace db t (rows ++ [v]))

/-- A query result: `none` when the statement produces no column
metadata (a `None` cursor description), otherwise the column names and
the fetched rows. -/
abbrev QueryResult := Option (List String × List (List Value))

/-- Execute a compiled statement on the (uncommitted) database state. -/
def execStmt : SQLStmt → List Value → DB → Except String QueryResult × DB
  | SQLStmt.selectAll t, _, db =>
    match dbLookup db t with
    | some rows => (Except.ok (some (["x"], rows.map (fun v => [v]))), db)
    | none => (Except.error ("no such table: " ++ t), db)
  | SQLStmt.beginTxn, _, db => (Except.ok none, db)
  | SQLStmt.createTable t, _, db =>
    match dbLookup db t with
    | some _ => (Except.error ("table " ++ t ++ " already exists"), db)
    | none => (Except.ok none, db ++ [(t, [])])
  | SQLStmt.insertInto t, params, db =>
    match insertRows t params db with
    | (none, db') => (Except.ok none, db')
    | (some e, db') => (Except.error e, db')
  | SQLStmt.dropTable t, _, db =>
    match dbLookup db t with
    | some _ => (Except.ok none, db.filter (fun p => p.1 != t))
    | none => (Except.error ("no such table: " ++ t), db)

/-- A connection handle; `readonly` records whether it was opened with
the `?mode=ro` URI flag (engine-level read-only enforcement). -/
structure Conn where
  readonly : Bool
deriving DecidableEq

/-- Execute query text on a connection: compile, then — before any
effect on the database — reject write-effecting statements on a
read-only handle with the engine's readonly error, else run. -/
def connExec (c : Conn) (q : String) (params : List Value) (db : DB) :
    Except String QueryResult × DB :=
  match parseStmt q with
  | none => (Except.error ("near " ++ q ++ ": syntax error"), db)
  | some s =>
    if c.readonly && writeEffect s then
      (Except.error "attempt to write a readonly database", db)
    else execStmt s params db

/-! ## The server dispatcher (translated from `Server.handle`) -/

/-- Decoded response payloads (`response_body` before packing):
`null` (Python `None`), a byte blob, or the `{columns, records}` map
where each record is an insertion-ordered string-keyed dictionary. -/
inductive Payload where
  | null
  | blob (bs : List Nat)
  | table (columns : List String) (records : List (List (String × Value)))
deriving DecidableEq

/-- Decoded request bodies, one constructor per dispatch path of
`Server.handle` plus the unknown-path case. -/
inductive Request where
  | query (q : String) (params : List Value) (mode : String)
  | importFile (filepath : String)
  | exportFile (filepath : String) (data : List Nat)
  | other (path : String)

/-- Python dictionary assignment `d[k] = v`: an existing key keeps its
position and takes the new value; a new key is appended. -/
def pyDictInsert (d : List (String × Value)) (k : String) (v : Value) :
    List (String × Value) :=
  if d.any (fun p => p.1 == k) then
    d.map (fun p => if p.1 == k then (k, v) else p)
  else d ++ [(k, v)]

/-- The dict comprehension from the source's read branch:
`{k: v for k, v in zip(columns, record)}`. -/
def pyDictOfZip (cols : List String) (row : List Value) : List (String × Value) :=
  (cols.zip row).foldl (fun d kv => pyDictInsert d kv.1 kv.2) []

/-- The error enrichment from the source's query branch:
`f"{err}\nQuery: {request_body['query']}\nParams: {request_body['params']}"`. -/
def enrichError (e q : String) (params : List Value) : String :=
  e ++ "\nQuery: " ++ q ++ "\nParams: " ++ pyReprList params

/-- Whether a path is absolute (begins with the separator). -/
def isAbsolute (b : String) : Bool :=
  match b.data with
  | [] => false
  | c :: _ => c == '/'

/-- Whether a path ends with the separator. -/
def lastIsSlash (a : String) : Bool :=
  match a.data.getLast? with
  | some c => c == '/'
  | none => false

/-- Model of `os.path.join(cwd, filepath)` (POSIX): an absolute second
component discards the first; otherwise they are joined with a
separator inserted when needed. -/
def osPathJoin (a b : String) : String :=
  if isAbsolute b then b
  else if a = "" then b
  else if lastIsSlash a then a ++ b
  else a ++ "/" ++ b

/-- The filesystem seen by `/import` and `/export`: path to bytes. -/
abbrev FS := List (String × List Nat)

/-- Read a file's full contents. -/
def fsLookup : FS → String → Option (List Nat)
  | [], _ => none
  | (k, v) :: rest, k' => if k = k' then some v else fsLookup rest k'

/-- Write a file, overwriting any existing file at that path. -/
def fsInsert (fs : FS) (k : String) (v : List Nat) : FS :=
  (k, v) :: fs.filter (fun p => p.1 != k)

/-- The mutable state a `Server` can affect: the database behind the
two handles, and the filesystem. -/
structure SrvState where
  db : DB
  fs : FS
deriving DecidableEq

/-- A connection's execute function, as the dispatcher consumes it. -/
abbrev ExecFn := String → List Value → DB → Except String QueryResult × DB

/-- `Server.handle` abstracted over the two connections' execute
functions (the source holds them as the `Server` object's fields).
`Except.error` is the 400 path (the error text written to the response
file), `Except.ok` the 200 path (the packed `response_body`).  The
write branch models `with self.readwrite_connection as con:` — the
context manager commits the engine's resulting state on success and
rolls back to the prior state when the statement raises. -/
def handleGen (roExec rwExec : ExecFn) (cwd : String) (req : Request)
    (st : SrvState) : Except String Payload × SrvState :=
  match req with
  | Request.query q params mode =>
    if mode = "w+" then
      match rwExec q params st.db with
      | (Except.ok _, db') => (Except.ok Payload.null, { st with db := db' })
      | (Except.error e, _) => (Except.error (enrichError e q params), st)
    else
      match roExec q params st.db with
      | (Except.ok none, db') => (Except.ok Payload.null, { st with db := db' })
      | (Except.ok (some (cols, rows)), db') =>
        (Except.ok (Payload.table cols (rows.map (pyDictOfZip cols))),
         { st with db := db' })
      | (Except.error e, db') =>
        (Except.error (enrichError e q params), { st with db := db' })
  | Request.importFile fp =>
    match fsLookup st.fs (osPathJoin cwd fp) with
    | some bs => (Except.ok (Payload.blob bs), st)
    | none =>
      (Except.error ("No such file or directory: " ++ osPathJoin cwd fp), st)
  | Request.exportFile fp data =>
    (Except.ok Payload.null, { st with fs := fsInsert st.fs (osPathJoin cwd fp) data })
  | Request.other p => (Except.error ("Invalid path: " ++ p), st)

/-- The server's two handles: the read-only connection is opened with
the `?mode=ro` URI, the read-write one by plain `sqlite3.connect`. -/
def Server.handle (cwd : String) (req : Request) (st : SrvState) :
    Except String Payload × SrvState :=
  handleGen (connExec (Conn.mk true)) (connExec (Conn.mk false)) cwd req st

/-- The numeric status line the control loop prints: 200 on success,
400 on any caught exception. -/
def statusOf : Except String Payload × SrvState → Nat
  | (Except.ok _, _) => 200
  | (Except.error _, _) => 400

instance {ε α : Type} [DecidableEq ε] [DecidableEq α] : DecidableEq (Except ε α) :=
  fun a b =>
    match a, b with
    | Except.ok x, Except.ok y =>
      if h : x = y then Decidable.isTrue (congrArg Except.ok h)
      else Decidable.isFalse (fun hh => h (Except.ok.inj hh))
    | Except.error x, Except.error y =>
      if h : x = y then Decidable.isTrue (congrArg Except.error h)
      else Decidable.isFalse (fun hh => h (Except.error.inj hh))
    | Except.ok _, Except.error _ => Decidable.isFalse (fun hh => Except.noConfusion hh)
    | Except.error _, Except.ok _ => Decidable.isFalse (fun hh => Except.noConfusion hh)

/-! ## Helper lemmas -/

theorem str_append_assoc (a b c : String) : (a ++ b) ++ c = a ++ (b ++ c) := by
  apply String.ext
  simp [List.append_assoc]

theorem str_append_empty (a : String) : a ++ "" = a := by
  apply String.ext
  simp

/-- Key lists of the source's record dictionaries: duplicate column
names collapse to their first occurrence. -/
def dedupNew (seen : List String) : List String → List String
  | [] => []
  | k :: ks =>
    if seen.any (fun x => x == k) then dedupNew seen ks
    else k :: dedupNew (seen ++ [k]) ks

/-- A column list with later duplicate occurrences removed. -/
def dedupFirst (l : List String) : List String := dedupNew [] l

theorem dKeys_pyDictInsert (d : List (String × Value)) (k : String) (v : Value) :
    (pyDictInsert d k v).map Prod.fst =
      if d.any (fun p => p.1 == k) then d.map Prod.fst else d.map Prod.fst ++ [k] := by
  unfold pyDictInsert
  by_cases h : d.any (fun p => p.1 == k) = true
  · rw [if_pos h, if_pos h, List.map_map]
    apply List.map_congr_left
    intro p _
    by_cases hpk : (p.1 == k) = true
    · have hp : p.1 = k := by simpa using hpk
      simp [Function.comp, hpk, hp]
    · simp [Function.comp, hpk]
  · rw [if_neg h, if_neg h]
    simp

theorem dKeys_foldl_insert (kvs : List (String × Value)) :
    ∀ d : List (String × Value),
      ((kvs.foldl (fun d kv => pyDictInsert d kv.1 kv.2) d)).map Prod.fst =
        d.map Prod.fst ++ dedupNew (d.map Prod.fst) (kvs.map Prod.fst) := by
  induction kvs with
  | nil => intro d; simp [dedupNew]
  | cons kv rest ih =>
    intro d
    rw [List.foldl_cons, ih, dKeys_pyDictInsert]
    have hmapany : (d.map Prod.fst).any (fun x => x == kv.1) =
        d.any (fun p => p.1 == kv.1) := by
      induction d with
      | nil => rfl
      | cons p ps ihp => simp only [List.map_cons, List.any_cons, ihp]
    by_cases h : d.any (fun p => p.1 == kv.1) = true
    · rw [if_pos h]
      simp [dedupNew, hmapany, h]
    · rw [if_neg h]
      simp only [Bool.not_eq_true] at h
      simp [dedupNew, hmapany, h, List.append_assoc]

theorem dKeys_pyDictOfZip (cols : List String) (row : List Value)
    (h : row.length = cols.length) :
    (pyDictOfZip cols row).map Prod.fst = dedupFirst cols := by
  unfold pyDictOfZip dedupFirst
  rw [dKeys_foldl_insert]
  rw [List.map_fst_zip cols row (le_of_eq h.symm)]
  simp

theorem dedupNew_of_nodup (l : List String) :
    ∀ seen, (∀ a ∈ l, seen.any (fun x => x == a) = false) → l.Nodup →
      dedupNew seen l = l := by
  induction l with
  | nil => intro seen _ _; rfl
  | cons k ks ih =>
    intro seen hseen hnd
    have hk : seen.any (fun x => x == k) = false := hseen k (List.mem_cons_self k ks)
    rw [dedupNew, if_neg (by simp [hk])]
    congr 1
    apply ih
    · intro a ha
      have h1 : seen.any (fun x => x == a) = false :=
        hseen a (List.mem_cons_of_mem k ha)
      have h2 : a ≠ k := fun he => (List.nodup_cons.mp hnd).1 (he ▸ ha)
      have h3 : (k == a) = false := beq_eq_false_iff_ne.mpr (Ne.symm h2)
      simp [List.any_append, h1, h3]
    · exact (List.nodup_cons.mp hnd).2

theorem dedupFirst_of_nodup (l : List String) (h : l.Nodup) : dedupFirst l = l :=
  dedupNew_of_nodup l [] (fun _ _ => rfl) h

/-- An engine returning a result set with a duplicated column name, as
SQLite produces for `SELECT 1 AS a, 2 AS a`. -/
def dupColsExec : ExecFn := fun _ _ db =>
  (Except.ok (some (["a", "a"], [[Value.int 1, Value.int 2]])), db)

/-! ## Claims -/

/-- C1: a query whose statement has write effects and whose mode selects
the read handle fails with the engine's readonly error (enriched by the
dispatcher) and leaves the server state, in particular the database,
unchanged — the read handle is opened with engine-level read-only
enforcement, so the caller-asserted mode is never trusted. -/
theorem readonly_handle_rejects_write_statements
    (cwd q : String) (params : List Value) (mode : String) (st : SrvState)
    (s : SQLStmt) (hp : parseStmt q = some s) (hw : writeEffect s = true)
    (hm : mode ≠ "w+") :
    Server.handle cwd (Request.query q params mode) st =
      (Except.error (enrichError "attempt to write a readonly database" q params), st) ∧
    statusOf (Server.handle cwd (Request.query q params mode) st) = 400 := by
  have h : Server.handle cwd (Request.query q params mode) st =
      (Except.error (enrichError "attempt to write a readonly database" q params), st) := by
    unfold Server.handle handleGen connExec
    simp [if_neg hm, hp, hw]
  exact ⟨h, by rw [h]; rfl⟩

theorem readonly_handle_rejects_write_statements_witness :
    Server.handle "" (Request.query "DROP TABLE t" [] "r")
        (SrvState.mk [("t", [Value.int 1])] []) =
      (Except.error
        (enrichError "attempt to write a readonly database" "DROP TABLE t" []),
       SrvState.mk [("t", [Value.int 1])] []) ∧
    statusOf (Server.handle "" (Request.query "DROP TABLE t" [] "r")
        (SrvState.mk [("t", [Value.int 1])] [])) = 400 :=
  readonly_handle_rejects_write_statements "" "DROP TABLE t" [] "r"
    (SrvState.mk [("t", [Value.int 1])] []) (SQLStmt.dropTable "t")
    (by decide) rfl (by decide)

/-- C2: a write-mode query runs under the read-write handle inside the
context-manager transaction: if the statement fails the state rolls
back to the original database (no partial effect survives, even when
the engine's uncommitted state holds partially inserted rows), and if
it succeeds the engine's resulting database is committed and the
response is `null`, never rows. -/
theorem write_mode_transaction_commits_iff_success
    (cwd q : String) (params : List Value) (st : SrvState) :
    (∀ e db', connExec (Conn.mk false) q params st.db = (Except.error e, db') →
      Server.handle cwd (Request.query q params "w+") st =
        (Except.error (enrichError e q params), st)) ∧
    (∀ r db', connExec (Conn.mk false) q params st.db = (Except.ok r, db') →
      Server.handle cwd (Request.query q params "w+") st =
        (Except.ok Payload.null, { st with db := db' })) := by
  constructor
  · intro e db' h
    unfold Server.handle handleGen
    simp [h]
  · intro r db' h
    unfold Server.handle handleGen
    simp [h]

theorem write_mode_transaction_commits_iff_success_witness :
    Server.handle ""
        (Request.query "INSERT INTO t" [Value.int 1, Value.null, Value.int 2] "w+")
        (SrvState.mk [("t", [])] []) =
      (Except.error (enrichError "NOT NULL constraint failed: t.x" "INSERT INTO t"
        [Value.int 1, Value.null, Value.int 2]),
       SrvState.mk [("t", [])] []) :=
  (write_mode_transaction_commits_iff_success "" "INSERT INTO t"
      [Value.int 1, Value.null, Value.int 2] (SrvState.mk [("t", [])] [])).1
    "NOT NULL constraint failed: t.x" [("t", [Value.int 1])] (by decide)

/-- C3: the whole-word branch of `find_widget_regexp` diverges from the
specified matcher contract.  With text "x", pattern "pattern",
wholeWord and caseSensitive set, the code returns 1 (it searches the
pattern inside the literal string "\b(?:\x7bpattern\x7d)\b" because the
intended f-string wrapping lacks its `f` prefix and sits in the text
argument of `re.search`), while the specified contract — match the
word-boundary-wrapped pattern against the text — yields false; on
text "hello", pattern "hello" the code returns 0 where the contract
yields true. -/
theorem find_widget_regexp_whole_word_diverges_from_spec :
    find_widget_regexp "x" "pattern" 1 1 = 1 ∧
    matches_spec "x" "pattern" true true = false ∧
    find_widget_regexp "hello" "hello" 1 1 = 0 ∧
    matches_spec "hello" "hello" true true = true :=
  ⟨by decide, by decide, by decide, by decide⟩

/-- C4 counterexample: for a result set whose two columns are both
named "a" (as SQLite returns for `SELECT 1 AS a, 2 AS a`), the
successful read-mode response carries a record whose key list is
["a"], not the two-element column list — the record's key set does not
equal the column list, refuting the claim for duplicate column
names. -/
theorem read_query_duplicate_columns_counterexample :
    (handleGen dupColsExec dupColsExec ""
        (Request.query "SELECT 1 AS a, 2 AS a" [] "r") (SrvState.mk [] [])).fst =
      Except.ok (Payload.table ["a", "a"] [[("a", Value.int 2)]]) ∧
    ¬ ([("a", Value.int 2)].map Prod.fst = ["a", "a"]) :=
  ⟨rfl, by decide⟩

/-- C4 amended: a successful read-mode query with result columns
responds with the columns and one record per fetched row; each record's
key list is the column list with later duplicate occurrences removed,
hence equal to the column list in the same order whenever the column
names are distinct. -/
theorem read_query_response_shape
    (ro rw : ExecFn) (cwd q : String) (params : List Value) (mode : String)
    (st : SrvState) (cols : List String) (rows : List (List Value)) (db' : DB)
    (hm : mode ≠ "w+")
    (hr : ro q params st.db = (Except.ok (some (cols, rows)), db'))
    (hl : ∀ r ∈ rows, r.length = cols.length) :
    handleGen ro rw cwd (Request.query q params mode) st =
      (Except.ok (Payload.table cols (rows.map (pyDictOfZip cols))),
       { st with db := db' }) ∧
    (rows.map (pyDictOfZip cols)).length = rows.length ∧
    (∀ record ∈ rows.map (pyDictOfZip cols),
      record.map Prod.fst = dedupFirst cols) ∧
    (cols.Nodup → ∀ record ∈ rows.map (pyDictOfZip cols),
      record.map Prod.fst = cols) := by
  have hkeys : ∀ record ∈ rows.map (pyDictOfZip cols),
      record.map Prod.fst = dedupFirst cols := by
    intro record hrec
    rcases List.mem_map.mp hrec with ⟨r, hrmem, hrEq⟩
    rw [← hrEq]
    exact dKeys_pyDictOfZip cols r (hl r hrmem)
  refine ⟨?_, by simp, hkeys, ?_⟩
  · unfold handleGen
    simp [if_neg hm, hr]
  · intro hnd record hrec
    rw [hkeys record hrec]
    exact dedupFirst_of_nodup cols hnd

theorem read_query_response_shape_witness :
    handleGen dupColsExec dupColsExec ""
        (Request.query "SELECT 1 AS a, 2 AS a" [] "r") (SrvState.mk [] []) =
      (Except.ok (Payload.table ["a", "a"]
        ([[Value.int 1, Value.int 2]].map (pyDictOfZip ["a", "a"]))),
       SrvState.mk [] []) ∧
    ([[Value.int 1, Value.int 2]].map (pyDictOfZip ["a", "a"])).length =
      [[Value.int 1, Value.int 2]].length ∧
    (∀ record ∈ [[Value.int 1, Value.int 2]].map (pyDictOfZip ["a", "a"]),
      record.map Prod.fst = dedupFirst ["a", "a"]) ∧
    (List.Nodup ["a", "a"] →
      ∀ record ∈ [[Value.int 1, Value.int 2]].map (pyDictOfZip ["a", "a"]),
        record.map Prod.fst = ["a", "a"]) :=
  read_query_response_shape dupColsExec dupColsExec "" "SELECT 1 AS a, 2 AS a"
    [] "r" (SrvState.mk [] []) ["a", "a"] [[Value.int 1, Value.int 2]] []
    (by decide) rfl (by decide)

/-- C5: a read-mode query that succeeds while producing no column
metadata (the cursor description is `None`) responds with payload
`null`, not an empty record list or an empty columns/records object. -/
theorem read_query_no_columns_yields_null
    (cwd q : String) (params : List Value) (mode : String) (st : SrvState)
    (db' : DB) (hm : mode ≠ "w+")
    (hr : connExec (Conn.mk true) q params st.db = (Except.ok none, db')) :
    Server.handle cwd (Request.query q params mode) st =
      (Except.ok Payload.null, { st with db := db' }) := by
  unfold Server.handle handleGen
  simp [if_neg hm, hr]

theorem read_query_no_columns_yields_null_witness :
    Server.handle "" (Request.query "BEGIN" [] "r") (SrvState.mk [] []) =
      (Except.ok Payload.null, SrvState.mk [] []) :=
  read_query_no_columns_yields_null "" "BEGIN" [] "r" (SrvState.mk [] []) []
    (by decide) (by decide)

/-- C6: whenever a query request completes with failure, the error text
written back contains the literal query string and the literal rendered
parameter list. -/
theorem query_error_contains_query_and_params
    (cwd q : String) (params : List Value) (mode : String) (st : SrvState)
    (m : String) (st' : SrvState)
    (h : Server.handle cwd (Request.query q params mode) st = (Except.error m, st')) :
    (∃ a b, m = a ++ q ++ b) ∧ (∃ c d, m = c ++ pyReprList params ++ d) := by
  have hshape : ∃ e, m = enrichError e q params := by
    by_cases hm : mode = "w+"
    · subst hm
      rcases hcw : connExec (Conn.mk false) q params st.db with ⟨res, db2⟩
      cases res with
      | ok r =>
        have hok : Server.handle cwd (Request.query q params "w+") st =
            (Except.ok Payload.null, { st with db := db2 }) := by
          unfold Server.handle handleGen; simp [hcw]
        rw [hok] at h
        simp at h
      | error e =>
        have herr : Server.handle cwd (Request.query q params "w+") st =
            (Except.error (enrichError e q params), st) := by
          unfold Server.handle handleGen; simp [hcw]
        rw [herr] at h
        simp only [Prod.mk.injEq, Except.error.injEq] at h
        exact ⟨e, h.1.symm⟩
    · rcases hcw : connExec (Conn.mk true) q params st.db with ⟨res, db2⟩
      cases res with
      | ok r =>
        cases r with
        | none =>
          have hok : Server.handle cwd (Request.query q params mode) st =
              (Except.ok Payload.null, { st with db := db2 }) := by
            unfold Server.handle handleGen; simp [if_neg hm, hcw]
          rw [hok] at h
          simp at h
        | some pr =>
          rcases pr with ⟨cols, rows⟩
          have hok : Server.handle cwd (Request.query q params mode) st =
              (Except.ok (Payload.table cols (rows.map (pyDictOfZip cols))),
               { st with db := db2 }) := by
            unfold Server.handle handleGen; simp [if_neg hm, hcw]
          rw [hok] at h
          simp at h
      | error e =>
        have herr : Server.handle cwd (Request.query q params mode) st =
            (Except.error (enrichError e q params), { st with db := db2 }) := by
          unfold Server.handle handleGen; simp [if_neg hm, hcw]
        rw [herr] at h
        simp only [Prod.mk.injEq, Except.error.injEq] at h
        exact ⟨e, h.1.symm⟩
  rcases hshape with ⟨e, he⟩
  subst he
  constructor
  · refine ⟨e ++ "\nQuery: ", "\nParams: " ++ pyReprList params, ?_⟩
    unfold enrichError
    rw [str_append_assoc (e ++ "\nQuery: " ++ q) "\nParams: " (pyReprList params)]
  · refine ⟨e ++ "\nQuery: " ++ q ++ "\nParams: ", "", ?_⟩
    unfold enrichError
    rw [str_append_empty]

theorem query_error_contains_query_and_params_witness :
    (∃ a b, enrichError "no such table: t" "DROP TABLE t" [Value.int 7] =
      a ++ "DROP TABLE t" ++ b) ∧
    (∃ c d, enrichError "no such table: t" "DROP TABLE t" [Value.int 7] =
      c ++ pyReprList [Value.int 7] ++ d) :=
  query_error_contains_query_and_params "" "DROP TABLE t" [Value.int 7] "w+"
    (SrvState.mk [] [])
    (enrichError "no such table: t" "DROP TABLE t" [Value.int 7])
    (SrvState.mk [] []) (by decide)

/-- C7: when the pattern fails to compile as a regular expression,
`find_widget_regexp` does not raise into the engine: the error is
caught and the result is 0 ("no match"), for every text and both
flags. -/
theorem invalid_pattern_yields_zero (text pattern : String)
    (whole_word case_sensitive : Int) (h : parseRegex pattern = none) :
    find_widget_regexp text pattern whole_word case_sensitive = 0 := by
  unfold find_widget_regexp reSearch
  rw [h]

theorem invalid_pattern_yields_zero_witness :
    find_widget_regexp "abc" "(" 0 1 = 0 :=
  invalid_pattern_yields_zero "abc" "(" 0 1 rfl

/-- C8: exporting blob data to a filepath and then importing the same
filepath (under the same working directory) returns exactly the same
bytes; the export succeeds with payload `null` and overwrites any
existing file. -/
theorem export_then_import_returns_same_bytes
    (cwd fp : String) (data : List Nat) (st : SrvState) :
    (Server.handle cwd (Request.exportFile fp data) st).fst = Except.ok Payload.null ∧
    Server.handle cwd (Request.importFile fp)
        (Server.handle cwd (Request.exportFile fp data) st).snd =
      (Except.ok (Payload.blob data),
       (Server.handle cwd (Request.exportFile fp data) st).snd) := by
  constructor
  · rfl
  · simp only [Server.handle, handleGen]
    simp [fsInsert, fsLookup]

/-- C9: the `mode` field is never validated or rejected — any value
other than the exact token "w+" routes the query to the read-only
handle: the outcome does not depend on the read-write handle at all and
coincides with the outcome for mode "r". -/
theorem non_write_mode_routes_to_readonly_handle
    (ro rw rw' : ExecFn) (cwd q : String) (params : List Value) (mode : String)
    (st : SrvState) (hm : mode ≠ "w+") :
    handleGen ro rw cwd (Request.query q params mode) st =
      handleGen ro rw' cwd (Request.query q params mode) st ∧
    handleGen ro rw cwd (Request.query q params mode) st =
      handleGen ro rw cwd (Request.query q params "r") st := by
  simp only [handleGen, if_neg hm,
    if_neg (show ¬ ("r" : String) = "w+" by decide), and_self]

theorem non_write_mode_routes_to_readonly_handle_witness :
    handleGen (connExec (Conn.mk true)) (connExec (Conn.mk false)) ""
        (Request.query "SELECT * FROM t" [] "write")
        (SrvState.mk [("t", [Value.int 3])] []) =
      handleGen (connExec (Conn.mk true)) (connExec (Conn.mk true)) ""
        (Request.query "SELECT * FROM t" [] "write")
        (SrvState.mk [("t", [Value.int 3])] []) ∧
    handleGen (connExec (Conn.mk true)) (connExec (Conn.mk false)) ""
        (Request.query "SELECT * FROM t" [] "write")
        (SrvState.mk [("t", [Value.int 3])] []) =
      handleGen (connExec (Conn.mk true)) (connExec (Conn.mk false)) ""
        (Request.query "SELECT * FROM t" [] "r")
        (SrvState.mk [("t", [Value.int 3])] []) :=
  non_write_mode_routes_to_readonly_handle (connExec (Conn.mk true))
    (connExec (Conn.mk false)) (connExec (Conn.mk true)) "" "SELECT * FROM t"
    [] "write" (SrvState.mk [("t", [Value.int 3])] []) (by decide)

/-- C10: for an absolute filepath, `os.path.join(cwd, filepath)`
discards the working directory, so import and export act on the
absolute path unchanged and their outcome is independent of the
configured working directory. -/
theorem absolute_filepath_ignores_cwd
    (cwd cwd2 fp : String) (data : List Nat) (st : SrvState)
    (h : isAbsolute fp = true) :
    osPathJoin cwd fp = fp ∧
    Server.handle cwd (Request.importFile fp) st =
      Server.handle cwd2 (Request.importFile fp) st ∧
    Server.handle cwd (Request.exportFile fp data) st =
      Server.handle cwd2 (Request.exportFile fp data) st := by
  have hj : ∀ c : String, osPathJoin c fp = fp := by
    intro c; unfold osPathJoin; rw [if_pos h]
  refine ⟨hj cwd, ?_, ?_⟩
  · simp only [Server.handle, handleGen]
    rw [hj cwd, hj cwd2]
  · simp only [Server.handle, handleGen]
    rw [hj cwd, hj cwd2]

theorem absolute_filepath_ignores_cwd_witness :
    osPathJoin "c" "/a/b" = "/a/b" ∧
    Server.handle "c" (Request.importFile "/a/b") (SrvState.mk [] []) =
      Server.handle "d" (Request.importFile "/a/b") (SrvState.mk [] []) ∧
    Server.handle "c" (Request.exportFile "/a/b" [1]) (SrvState.mk [] []) =
      Server.handle "d" (Request.exportFile "/a/b" [1]) (SrvState.mk [] []) :=
  absolute_filepath_ignores_cwd "c" "d" "/a/b" [1] (SrvState.mk [] []) (by decide)

end SqliteEditor
